import Mathlib

/-!
Shallow embedding of the conversation request/response lifecycle of the
ObsidianGenie plugin (`main.ts`): the chat controller state, the
`handleMessage` submission path, the suggested-action dispatch, the
language-selection modal callback, the panel open/close toggle, and the
API-key obfuscation pair `encryptApiKey` / `decryptApiKey`.

Conventions of the embedding:
* The DOM transcript (`messagesContainer`) is modelled as a list of
  `ChatMessage`; error entries rendered by `addErrorMessage` appear as
  messages with role `Role.error` (the source renders them as plain
  `div.gemini-message-error` elements without a `ChatMessage` record).
* JavaScript truthiness of the `currentFileContent : string | null`
  field is modelled by `optTruthy` (`null` and `""` are falsy).
* Asynchronous remote calls are modelled by passing the call's outcome
  (`Outcome`) as an explicit argument; the list of `Event`s returned
  alongside the new state records, in order, every observable effect the
  source performs (message appends, the typing indicator, remote calls).
* `Date.now()` is modelled by explicit timestamp arguments.
-/

/-- Role of a transcript entry.  The source's `ChatMessage` interface only
has `user | bot`; `error` marks entries produced by `addErrorMessage`. -/
inductive Role where
  | user
  | bot
  | error
deriving DecidableEq, Repr

/-- A transcript entry: `{ role, content, timestamp }` from `main.ts`. -/
structure ChatMessage where
  role : Role
  content : String
  timestamp : Nat
deriving DecidableEq, Repr

/-- Controller state: the fields of `GeminiChatbotPlugin` the conversation
lifecycle reads and writes.  `pendingCount` counts typing-indicator
elements currently in the transcript; `serviceConfigured` is whether
`geminiService` is non-null; `containerVisible` is whether
`chatContainer.style.display !== 'none'`. -/
structure St where
  conversation : List ChatMessage
  pendingCount : Nat
  suggestedVisible : Bool
  currentFileContent : Option String
  serviceConfigured : Bool
  containerVisible : Bool
deriving DecidableEq, Repr

/-- Outcome of the single remote model call a code path performs. -/
inductive Outcome where
  | success (response : String)
  | failure
deriving DecidableEq, Repr

/-- Observable effects, in program order. -/
inductive Event where
  | hideSuggested
  | showSuggested
  | appendMsg (m : ChatMessage)
  | showPending
  | removePending
  | remoteCall (prompt : String)
  | translateCall (content : String) (language : String)
  | focusInput (placeholder : String)
deriving DecidableEq, Repr

/-- JS truthiness of `currentFileContent : string | null`:
`null` and the empty string are falsy. -/
def optTruthy : Option String → Bool
  | some s => decide (s ≠ "")
  | none => false

/-- `String.prototype.trim`: strip leading and trailing whitespace
(modelled over the ASCII whitespace characters), as a structural
computation on the character list. -/
def jsTrim (s : String) : String :=
  ⟨((s.data.dropWhile Char.isWhitespace).reverse.dropWhile
      Char.isWhitespace).reverse⟩

/-- The messages appended to the transcript during a trace. -/
def appendedMessages (evs : List Event) : List ChatMessage :=
  evs.filterMap fun e =>
    match e with
    | .appendMsg m => some m
    | _ => none

/-- The appended messages with role `user`. -/
def userMessages (evs : List Event) : List ChatMessage :=
  (appendedMessages evs).filter fun m => m.role = Role.user

/-- The appended messages with role `error`. -/
def errorMessages (evs : List Event) : List ChatMessage :=
  (appendedMessages evs).filter fun m => m.role = Role.error

/-- The appended messages with role `bot`. -/
def botMessages (evs : List Event) : List ChatMessage :=
  (appendedMessages evs).filter fun m => m.role = Role.bot

/-- The prompts delivered to `geminiService.sendMessage` during a trace. -/
def remoteCalls (evs : List Event) : List String :=
  evs.filterMap fun e =>
    match e with
    | .remoteCall p => some p
    | _ => none

/-- The `(content, language)` pairs delivered to
`geminiService.translateContent` during a trace. -/
def translateCalls (evs : List Event) : List (String × String) :=
  evs.filterMap fun e =>
    match e with
    | .translateCall c l => some (c, l)
    | _ => none

/-- The fixed failure string of `handleMessage`'s catch branch. -/
def failureText : String := "Failed to get response from Gemini"

/-- The composed prompt of `handleMessage` (main.ts lines 72-74):
`this.currentFileContent ? template : message`, a JS truthiness test. -/
def contextMessage (currentFileContent : Option String) (message : String) :
    String :=
  if optTruthy currentFileContent then
    "Context from current note:\n" ++ currentFileContent.getD "" ++
      "\n\nUser question: " ++ message
  else message

/-- `handleMessage` (main.ts lines 67-109).  Guard: returns immediately when
no `geminiService` is configured or the message trims to empty.  Otherwise:
hide suggested actions, append the `user` message (original text), append
the typing indicator, send the composed prompt, then on resolution remove
the indicator and append the `bot` response or the fixed error text.
`now₁` is `Date.now()` at the user append, `now₂` at the resolution.
The source catches every remote failure, so this function is total. -/
def handleMessage (st : St) (message : String) (oc : Outcome)
    (now₁ now₂ : Nat) : St × List Event :=
  if st.serviceConfigured = false ∨ jsTrim message = "" then (st, [])
  else
    let st := { st with suggestedVisible := false }
    let prompt := contextMessage st.currentFileContent message
    let userMessage : ChatMessage := ⟨Role.user, message, now₁⟩
    let st := { st with conversation := st.conversation ++ [userMessage] }
    let st := { st with pendingCount := st.pendingCount + 1 }
    match oc with
    | .success response =>
      let st := { st with pendingCount := st.pendingCount - 1 }
      let botMessage : ChatMessage := ⟨Role.bot, response, now₂⟩
      ({ st with conversation := st.conversation ++ [botMessage] },
       [.hideSuggested, .appendMsg userMessage, .showPending,
        .remoteCall prompt, .removePending, .appendMsg botMessage])
    | .failure =>
      let st := { st with pendingCount := st.pendingCount - 1 }
      let errMessage : ChatMessage := ⟨Role.error, failureText, now₂⟩
      ({ st with conversation := st.conversation ++ [errMessage] },
       [.hideSuggested, .appendMsg userMessage, .showPending,
        .remoteCall prompt, .removePending, .appendMsg errMessage])

/-- `showLanguageSelectionModal` (main.ts lines 302-319).  `pickerChoice`
is `some language` when the modal's one-shot callback fires, `none` when
the modal is dismissed without a choice.  The callback runs only behind
`if (this.geminiService)`; on success it appends a `bot` message with the
translation, on failure the fixed `"Translation failed"` error. -/
def showLanguageSelectionModal (st : St) (content : String)
    (pickerChoice : Option String) (oc : Outcome) (now : Nat) :
    St × List Event :=
  match pickerChoice with
  | none => (st, [])
  | some language =>
    if st.serviceConfigured then
      match oc with
      | .success translation =>
        let botMessage : ChatMessage := ⟨Role.bot, translation, now⟩
        ({ st with conversation := st.conversation ++ [botMessage] },
         [.translateCall content language, .appendMsg botMessage])
      | .failure =>
        let errMessage : ChatMessage := ⟨Role.error, "Translation failed", now⟩
        ({ st with conversation := st.conversation ++ [errMessage] },
         [.translateCall content language, .appendMsg errMessage])
    else (st, [])

/-- The four suggested-action buttons of the markup (main.ts lines
192-207); the switch at lines 278-297 is written against their visible
labels. -/
inductive ActionKind where
  | summarize
  | askAboutPage
  | findActionItems
  | translate
deriving DecidableEq, Repr

/-- The full `textContent` of each suggested-action button as the markup
(main.ts lines 192-207) produces it: a newline and five tabs, the icon
emoji of the nested `span`, a newline and five tabs, the visible label,
a newline and four tabs.  `textContent` concatenates every descendant
text node, so the icon and the indentation are part of it. -/
def actionButtonText : ActionKind → String
  | ActionKind.summarize =>
    "\n\t\t\t\t\t📝\n\t\t\t\t\tSummarize this page\n\t\t\t\t"
  | ActionKind.askAboutPage =>
    "\n\t\t\t\t\t🔍\n\t\t\t\t\tAsk about this page\n\t\t\t\t"
  | ActionKind.findActionItems =>
    "\n\t\t\t\t\t✓\n\t\t\t\t\tFind action items\n\t\t\t\t"
  | ActionKind.translate =>
    "\n\t\t\t\t\t🌐\n\t\t\t\t\tTranslate to\n\t\t\t\t"

/-- The suggested-action click handler (main.ts lines 267-298), applied
to the clicked button's `textContent`.  It computes
`action = button.textContent?.trim()`; the guard
`if (!this.currentFileContent)` (JS truthiness) appends the fixed error
and returns before anything else; otherwise the suggested actions are
hidden and `action` is switched against the four bare labels.  Note the
trimmed `textContent` of the real buttons still begins with the icon
emoji and keeps the indentation between icon and label, so none of the
four cases ever matches it and the switch falls through doing nothing. -/
def handleActionClick (st : St) (buttonText : String)
    (pickerChoice : Option String) (oc : Outcome) (now₁ now₂ : Nat) :
    St × List Event :=
  let action := jsTrim buttonText
  if optTruthy st.currentFileContent = false then
    let errMessage : ChatMessage := ⟨Role.error, "No active file selected", now₂⟩
    ({ st with conversation := st.conversation ++ [errMessage] },
     [.appendMsg errMessage])
  else
    let content := st.currentFileContent.getD ""
    let st := { st with suggestedVisible := false }
    let (st, evs) :=
      if action = "Summarize this page" then
        handleMessage st
          ("Please provide a concise summary of this content:\n" ++ content)
          oc now₁ now₂
      else if action = "Ask about this page" then
        (st, [.focusInput "Ask a question about this page..."])
      else if action = "Find action items" then
        handleMessage st
          ("Please analyze this content and list all action items, tasks, and to-dos:\n"
            ++ content) oc now₁ now₂
      else if action = "Translate to" then
        showLanguageSelectionModal st content pickerChoice oc now₂
      else (st, [])
    (st, .hideSuggested :: evs)

/-- A click on the suggested-action button of the given kind: the click
handler applied to that button's `textContent`. -/
def runSuggestedAction (st : St) (kind : ActionKind)
    (pickerChoice : Option String) (oc : Outcome) (now₁ now₂ : Nat) :
    St × List Event :=
  handleActionClick st (actionButtonText kind) pickerChoice oc now₁ now₂

/-- `toggleChatContainer` (main.ts lines 321-347).  When the container was
hidden, opening clears the transcript, reads the active file (modelled by
`activeFileContent`: `some c` when a file is open and its read resolves to
`c`, `none` when no file is open — in which case the `if (activeFile)`
branch is skipped and `currentFileContent` keeps its previous value), and
shows the suggested actions.  Closing only flips visibility. -/
def toggleChatContainer (st : St) (activeFileContent : Option String) : St :=
  if st.containerVisible then { st with containerVisible := false }
  else
    { st with
      containerVisible := true
      conversation := []
      currentFileContent :=
        match activeFileContent with
        | some c => some c
        | none => st.currentFileContent
      suggestedVisible := true }

/-!
Credential obfuscation (`encryptApiKey` / `decryptApiKey`, main.ts lines
362-368).  The source composes `split('').reverse().join('')` with the
platform's `btoa` / `atob`.  `btoa` maps a string of code units below 256
to its canonical padded base64 encoding and throws otherwise; `atob`
decodes base64 back to such a string and throws on input that is not
valid base64.  Both are modelled as `Option`-returning functions over the
standard base64 alphabet, with padding required exactly at the end as
`btoa` produces it (the browser `atob` additionally tolerates whitespace
and an unpadded tail; no input considered below exercises that slack).
-/

/-- The 64-character base64 alphabet, in index order. -/
def b64AlphabetChars : List Char :=
  ['A', 'B', 'C', 'D', 'E', 'F', 'G', 'H', 'I', 'J', 'K', 'L', 'M',
   'N', 'O', 'P', 'Q', 'R', 'S', 'T', 'U', 'V', 'W', 'X', 'Y', 'Z',
   'a', 'b', 'c', 'd', 'e', 'f', 'g', 'h', 'i', 'j', 'k', 'l', 'm',
   'n', 'o', 'p', 'q', 'r', 's', 't', 'u', 'v', 'w', 'x', 'y', 'z',
   '0', '1', '2', '3', '4', '5', '6', '7', '8', '9', '+', '/']

/-- Character for a sextet value. -/
def b64Char (n : Nat) : Char := b64AlphabetChars.getD n 'A'

/-- Sextet value of a character, `none` when outside the alphabet. -/
def b64Index (c : Char) : Option Nat :=
  let i := b64AlphabetChars.indexOf c
  if i < b64AlphabetChars.length then some i else none

/-- Canonical base64 encoding of a byte sequence (what `btoa` emits). -/
def b64Encode : List Nat → List Char
  | [] => []
  | [b1] => [b64Char (b1 / 4), b64Char (b1 % 4 * 16), '=', '=']
  | [b1, b2] =>
    [b64Char (b1 / 4), b64Char (b1 % 4 * 16 + b2 / 16),
     b64Char (b2 % 16 * 4), '=']
  | b1 :: b2 :: b3 :: rest =>
    b64Char (b1 / 4) :: b64Char (b1 % 4 * 16 + b2 / 16) ::
      b64Char (b2 % 16 * 4 + b3 / 64) :: b64Char (b3 % 64) :: b64Encode rest

/-- Base64 decoding to a byte sequence; `none` on input `atob` rejects
(wrong length, characters outside the alphabet, misplaced padding). -/
def b64Decode : List Char → Option (List Nat)
  | [] => some []
  | c1 :: c2 :: c3 :: c4 :: rest =>
    match b64Index c1, b64Index c2 with
    | some i1, some i2 =>
      if c3 = '=' then
        if c4 = '=' ∧ rest = [] then some [i1 * 4 + i2 / 16] else none
      else
        match b64Index c3 with
        | some i3 =>
          if c4 = '=' then
            if rest = [] then
              some [i1 * 4 + i2 / 16, i2 % 16 * 16 + i3 / 4]
            else none
          else
            match b64Index c4 with
            | some i4 =>
              (b64Decode rest).map fun bs =>
                (i1 * 4 + i2 / 16) :: (i2 % 16 * 16 + i3 / 4) ::
                  (i3 % 4 * 64 + i4) :: bs
            | none => none
        | none => none
    | _, _ => none
  | _ => none

/-- The code units of a string when all are below 256 (the strings `btoa`
accepts), as bytes. -/
def latin1Bytes (s : String) : Option (List Nat) :=
  if s.data.all fun c => c.toNat < 256 then some (s.data.map Char.toNat)
  else none

/-- String built from a byte sequence (how `atob` returns its result). -/
def bytesToString (l : List Nat) : String := ⟨l.map Char.ofNat⟩

/-- Model of the platform `btoa`. -/
def btoaModel (s : String) : Option String :=
  (latin1Bytes s).map fun bs => ⟨b64Encode bs⟩

/-- Model of the platform `atob`. -/
def atobModel (s : String) : Option String :=
  (b64Decode s.data).map bytesToString

/-- `split('').reverse().join('')`: code-unit reversal. -/
def reverseString (s : String) : String := ⟨s.data.reverse⟩

/-- `encryptApiKey` (main.ts line 362): `btoa(key.split('').reverse().join(''))`. -/
def encryptApiKey (key : String) : Option String :=
  btoaModel (reverseString key)

/-- `decryptApiKey` (main.ts line 366): `atob(encryptedKey).split('').reverse().join('')`. -/
def decryptApiKey (encryptedKey : String) : Option String :=
  (atobModel encryptedKey).map reverseString

/-- A printable ASCII character. -/
def printableChar (c : Char) : Prop := 32 ≤ c.toNat ∧ c.toNat ≤ 126

/-! Helper lemmas shared by the claim theorems. -/

/-- The data of an explicitly built string. -/
theorem data_mk (l : List Char) : (String.mk l).data = l := rfl

/-- Rebuilding a string from its data. -/
theorem mk_data (s : String) : String.mk s.data = s := rfl

/-- Decoding an encoded sextet recovers its value. -/
theorem b64Index_b64Char : ∀ i, i < 64 → b64Index (b64Char i) = some i := by
  decide

/-- Encoded sextets are never the padding character. -/
theorem b64Char_ne_pad : ∀ i, i < 64 → b64Char i ≠ '=' := by
  decide

/-- Decoding inverts encoding on byte sequences. -/
theorem b64Decode_b64Encode :
    ∀ l : List Nat, (∀ b ∈ l, b < 256) → b64Decode (b64Encode l) = some l
  | [], _ => rfl
  | [b1], h => by
    have hb1 : b1 < 256 := h b1 (by simp)
    have h1 := b64Index_b64Char (b1 / 4) (by omega)
    have h2 := b64Index_b64Char (b1 % 4 * 16) (by omega)
    simp [b64Encode, b64Decode, h1, h2]
    omega
  | [b1, b2], h => by
    have hb1 : b1 < 256 := h b1 (by simp)
    have hb2 : b2 < 256 := h b2 (by simp)
    have h1 := b64Index_b64Char (b1 / 4) (by omega)
    have h2 := b64Index_b64Char (b1 % 4 * 16 + b2 / 16) (by omega)
    have h3 := b64Index_b64Char (b2 % 16 * 4) (by omega)
    have hne3 := b64Char_ne_pad (b2 % 16 * 4) (by omega)
    simp [b64Encode, b64Decode, h1, h2, h3, hne3]
    omega
  | b1 :: b2 :: b3 :: rest, h => by
    have hb1 : b1 < 256 := h b1 (by simp)
    have hb2 : b2 < 256 := h b2 (by simp)
    have hb3 : b3 < 256 := h b3 (by simp)
    have ih := b64Decode_b64Encode rest (fun b hb => h b (by simp [hb]))
    have h1 := b64Index_b64Char (b1 / 4) (by omega)
    have h2 := b64Index_b64Char (b1 % 4 * 16 + b2 / 16) (by omega)
    have h3 := b64Index_b64Char (b2 % 16 * 4 + b3 / 64) (by omega)
    have h4 := b64Index_b64Char (b3 % 64) (by omega)
    have hne3 := b64Char_ne_pad (b2 % 16 * 4 + b3 / 64) (by omega)
    have hne4 := b64Char_ne_pad (b3 % 64) (by omega)
    simp [b64Encode, b64Decode, h1, h2, h3, h4, hne3, hne4, ih]
    omega

/-- The credential transform round-trips: obfuscating any string of code
units below 256 and revealing the result gives the string back. -/
theorem encryptApiKey_decryptApiKey (s : String)
    (h : ∀ c ∈ s.data, c.toNat < 256) :
    encryptApiKey s = some ⟨b64Encode ((s.data.map Char.toNat).reverse)⟩ ∧
    decryptApiKey ⟨b64Encode ((s.data.map Char.toNat).reverse)⟩ = some s := by
  have hbytes : ∀ b ∈ (s.data.map Char.toNat).reverse, b < 256 := by
    intro b hb
    rcases List.mem_map.mp (List.mem_reverse.mp hb) with ⟨c, hc, rfl⟩
    exact h c hc
  have hdec := b64Decode_b64Encode _ hbytes
  have hmapback : (s.data.map Char.toNat).map Char.ofNat = s.data := by
    rw [List.map_map]
    have hpt : ∀ c ∈ s.data, (Char.ofNat ∘ Char.toNat) c = id c := by
      intro c _
      simp [Char.ofNat_toNat]
    rw [List.map_congr_left hpt, List.map_id]
  have hall : s.data.reverse.all (fun c => decide (c.toNat < 256)) = true := by
    rw [List.all_eq_true]
    intro c hc
    exact decide_eq_true (h c (List.mem_reverse.mp hc))
  constructor
  · show btoaModel (reverseString s) = _
    unfold btoaModel latin1Bytes reverseString
    rw [data_mk]
    simp only [hall, if_pos, Option.map_some', List.map_reverse]
  · unfold decryptApiKey atobModel
    rw [data_mk, hdec, Option.map_some']
    unfold bytesToString reverseString
    rw [data_mk, List.map_reverse, Option.map_some', data_mk,
      List.reverse_reverse, hmapback]

/-! Claim theorems. -/

/-- **C1** (amended): for every submission of text `Q` that is non-empty
after trimming, while a Model Client is configured and ActiveContext
holds a *non-empty* document text `D`, the prompt delivered to the Model
Client equals the fixed composition embedding `D` followed by `Q`, while
the user message appended to the conversation has content `Q` alone.
(The unamended claim fails when the captured document text is the empty
string: the source tests JS truthiness, see the counterexample.) -/
theorem C1_prompt_composition (st : St) (Q D : String) (oc : Outcome)
    (n₁ n₂ : Nat) (hs : st.serviceConfigured = true) (hq : jsTrim Q ≠ "")
    (hd : st.currentFileContent = some D) (hne : D ≠ "") :
    remoteCalls (handleMessage st Q oc n₁ n₂).2 =
      ["Context from current note:\n" ++ D ++ "\n\nUser question: " ++ Q] ∧
    userMessages (handleMessage st Q oc n₁ n₂).2 = [⟨Role.user, Q, n₁⟩] := by
  cases oc <;>
    simp [handleMessage, hs, hq, hd, hne, contextMessage, optTruthy,
      remoteCalls, userMessages, appendedMessages]

/-- **C1** witness: the amended claim at a concrete state. -/
theorem C1_witness :
    remoteCalls (handleMessage ⟨[], 0, true, some "Doc text", true, true⟩
        "Hello" (Outcome.success "Hi") 0 1).2 =
      ["Context from current note:\n" ++ "Doc text" ++
        "\n\nUser question: " ++ "Hello"] ∧
    userMessages (handleMessage ⟨[], 0, true, some "Doc text", true, true⟩
        "Hello" (Outcome.success "Hi") 0 1).2 = [⟨Role.user, "Hello", 0⟩] :=
  C1_prompt_composition _ "Hello" "Doc text" _ 0 1 rfl (by decide) rfl
    (by decide)

/-- **C1** counterexample: when ActiveContext holds the *empty* document
text (an empty note was captured), the delivered prompt for submission
`"Hello"` is `"Hello"` itself, not the fixed composition of the document
text and the question: `currentFileContent` is tested for JS truthiness
and the empty string is falsy. -/
theorem C1_counterexample :
    remoteCalls (handleMessage ⟨[], 0, true, some "", true, true⟩ "Hello"
        (Outcome.success "Hi") 0 1).2 = ["Hello"] ∧
    ("Hello" : String) ≠
      "Context from current note:\n" ++ "" ++ "\n\nUser question: " ++
        "Hello" := by
  constructor
  · rfl
  · decide

/-- **C2**: for every submission accepted by `handleMessage`'s guard
(text non-empty after trimming, Model Client configured), exactly one
user message is appended, its content is the original submitted text
(not the composed prompt), and the append event precedes the showing of
the pending indicator. -/
theorem C2_user_append_before_pending (st : St) (rawText : String)
    (oc : Outcome) (n₁ n₂ : Nat) (hs : st.serviceConfigured = true)
    (ht : jsTrim rawText ≠ "") :
    userMessages (handleMessage st rawText oc n₁ n₂).2 =
      [⟨Role.user, rawText, n₁⟩] ∧
    ∃ p m, (handleMessage st rawText oc n₁ n₂).2 =
      [Event.hideSuggested, Event.appendMsg ⟨Role.user, rawText, n₁⟩,
       Event.showPending, Event.remoteCall p, Event.removePending,
       Event.appendMsg m] ∧ m.role ≠ Role.user := by
  cases oc with
  | success r =>
    refine ⟨?_, contextMessage st.currentFileContent rawText,
      ⟨Role.bot, r, n₂⟩, ?_, fun h => Role.noConfusion h⟩
    · simp [handleMessage, hs, ht, userMessages, appendedMessages]
    · simp [handleMessage, hs, ht]
  | failure =>
    refine ⟨?_, contextMessage st.currentFileContent rawText,
      ⟨Role.error, failureText, n₂⟩, ?_, fun h => Role.noConfusion h⟩
    · simp [handleMessage, hs, ht, userMessages, appendedMessages]
    · simp [handleMessage, hs, ht]

/-- **C2** witness: the claim at a concrete state. -/
theorem C2_witness :
    userMessages (handleMessage ⟨[], 0, true, none, true, true⟩ "Hello"
        (Outcome.success "Hi") 3 4).2 = [⟨Role.user, "Hello", 3⟩] ∧
    ∃ p m, (handleMessage ⟨[], 0, true, none, true, true⟩ "Hello"
        (Outcome.success "Hi") 3 4).2 =
      [Event.hideSuggested, Event.appendMsg ⟨Role.user, "Hello", 3⟩,
       Event.showPending, Event.remoteCall p, Event.removePending,
       Event.appendMsg m] ∧ m.role ≠ Role.user :=
  C2_user_append_before_pending _ "Hello" (Outcome.success "Hi") 3 4 rfl
    (by decide)

/-- **C3**: when the remote call of an accepted submission fails,
exactly one error message with the fixed failure text is appended, the
pending indicator is removed (the indicator count returns to its prior
value, and the trace removes the indicator it showed), every prior
conversation entry is unchanged (the new conversation extends the old
one), and — the embedding being a total function — no exception
propagates to the caller. -/
theorem C3_failure_single_error (st : St) (rawText : String) (n₁ n₂ : Nat)
    (hs : st.serviceConfigured = true) (ht : jsTrim rawText ≠ "") :
    (handleMessage st rawText Outcome.failure n₁ n₂).1.conversation =
      st.conversation ++
        [⟨Role.user, rawText, n₁⟩, ⟨Role.error, failureText, n₂⟩] ∧
    (handleMessage st rawText Outcome.failure n₁ n₂).1.pendingCount =
      st.pendingCount ∧
    errorMessages (handleMessage st rawText Outcome.failure n₁ n₂).2 =
      [⟨Role.error, failureText, n₂⟩] ∧
    (handleMessage st rawText Outcome.failure n₁ n₂).2 =
      [Event.hideSuggested, Event.appendMsg ⟨Role.user, rawText, n₁⟩,
       Event.showPending,
       Event.remoteCall (contextMessage st.currentFileContent rawText),
       Event.removePending, Event.appendMsg ⟨Role.error, failureText, n₂⟩] := by
  refine ⟨?_, ?_, ?_, ?_⟩ <;>
    simp [handleMessage, hs, ht, errorMessages, appendedMessages]

/-- **C3** witness: the claim at a concrete state with one prior entry. -/
theorem C3_witness :
    (handleMessage ⟨[⟨Role.bot, "old", 0⟩], 0, true, none, true, true⟩
        "Hi" Outcome.failure 1 2).1.conversation =
      [⟨Role.bot, "old", 0⟩] ++
        [⟨Role.user, "Hi", 1⟩, ⟨Role.error, failureText, 2⟩] ∧
    (handleMessage ⟨[⟨Role.bot, "old", 0⟩], 0, true, none, true, true⟩
        "Hi" Outcome.failure 1 2).1.pendingCount = 0 ∧
    errorMessages (handleMessage ⟨[⟨Role.bot, "old", 0⟩], 0, true, none,
        true, true⟩ "Hi" Outcome.failure 1 2).2 =
      [⟨Role.error, failureText, 2⟩] ∧
    (handleMessage ⟨[⟨Role.bot, "old", 0⟩], 0, true, none, true, true⟩
        "Hi" Outcome.failure 1 2).2 =
      [Event.hideSuggested, Event.appendMsg ⟨Role.user, "Hi", 1⟩,
       Event.showPending, Event.remoteCall (contextMessage none "Hi"),
       Event.removePending, Event.appendMsg ⟨Role.error, failureText, 2⟩] :=
  C3_failure_single_error _ "Hi" 1 2 rfl (by decide)

/-- **C5**: a submission whose text is empty or whitespace-only, and
likewise any submission while no Model Client is configured, is a
complete no-op: the state is unchanged and no event is produced (no
message of any role is appended, no remote call occurs, no error is
surfaced). -/
theorem C5_empty_or_unconfigured_noop (st : St) (message : String)
    (oc : Outcome) (n₁ n₂ : Nat)
    (h : jsTrim message = "" ∨ st.serviceConfigured = false) :
    handleMessage st message oc n₁ n₂ = (st, []) := by
  rcases h with h | h <;> simp [handleMessage, h]

/-- **C5** witness: a whitespace-only submission at a concrete state. -/
theorem C5_witness :
    handleMessage ⟨[], 0, true, some "Doc", true, true⟩ "   "
        Outcome.failure 0 0 =
      (⟨[], 0, true, some "Doc", true, true⟩, []) :=
  C5_empty_or_unconfigured_noop _ "   " Outcome.failure 0 0
    (Or.inl (by decide))

instance (c : Char) : Decidable (printableChar c) := by
  unfold printableChar
  infer_instance

/-- **C4** (amended): for every printable-character string `s`,
`reveal(obfuscate(s)) === s` (where obfuscate is character reversal
followed by base64 encoding and reveal is its inverse).  The other
direction of the unamended claim, `obfuscate(reveal(s)) === s` for every
printable `s`, fails: `reveal` rejects or re-canonicalizes printable
strings that are not canonical base64, see the counterexample. -/
theorem C4_reveal_obfuscate_roundtrip (s : String)
    (h : ∀ c ∈ s.data, printableChar c) :
    ∃ e, encryptApiKey s = some e ∧ decryptApiKey e = some s := by
  have h256 : ∀ c ∈ s.data, c.toNat < 256 := by
    intro c hc
    rcases h c hc with ⟨_, h2⟩
    omega
  exact ⟨_, encryptApiKey_decryptApiKey s h256⟩

/-- **C4** witness: the round trip at the scenario key `"abc123"`. -/
theorem C4_witness :
    ∃ e, encryptApiKey "abc123" = some e ∧
      decryptApiKey e = some "abc123" :=
  C4_reveal_obfuscate_roundtrip "abc123" (by decide)

/-- **C4** counterexample: for the printable string `"ab=="`,
`obfuscate(reveal(s))` is `"aQ=="`, not `s` back: `reveal "ab=="`
produces `"i"` (base64 discards the two trailing sextet bits) and
obfuscating `"i"` yields the canonical encoding `"aQ=="`. -/
theorem C4_counterexample :
    (∀ c ∈ "ab==".data, printableChar c) ∧
    decryptApiKey "ab==" = some "i" ∧
    encryptApiKey "i" = some "aQ==" ∧ ("aQ==" : String) ≠ "ab==" := by
  decide

/-- **C6** (code bug): the translate flow the claim describes is
unreachable.  The handler switches on `button.textContent?.trim()`,
which for the real translate button is `"🌐\n\t\t\t\t\tTranslate to"` —
the icon emoji and the template indentation survive the trim — so the
`'Translate to'` case (like every other case) never matches.  A click on
the translate button with a document context held and a Model Client
configured therefore only hides the suggested actions: the Language
Picker never opens, no translate call is made, and no message of any
role is appended, where the switch bodies (and the spec) call for the
picker to open and its callback to append exactly one bot or error
message. -/
theorem C6_dead_dispatch :
    runSuggestedAction ⟨[], 0, true, some "Doc", true, true⟩
        ActionKind.translate (some "French") (Outcome.success "Bonjour")
        0 5 =
      (⟨[], 0, false, some "Doc", true, true⟩, [Event.hideSuggested]) ∧
    jsTrim (actionButtonText ActionKind.translate) ≠ "Translate to" ∧
    appendedMessages (runSuggestedAction ⟨[], 0, true, some "Doc", true,
        true⟩ ActionKind.translate (some "French")
        (Outcome.success "Bonjour") 0 5).2 = [] ∧
    translateCalls (runSuggestedAction ⟨[], 0, true, some "Doc", true,
        true⟩ ActionKind.translate (some "French")
        (Outcome.success "Bonjour") 0 5).2 = [] := by
  refine ⟨rfl, by decide, rfl, rfl⟩

/-- **C7**: for every suggested-action kind, when ActiveContext is not
set (`currentFileContent` is null), the handler appends the error
message "No active file selected" and returns without contacting the
model: no remote call and no translate call occur. -/
theorem C7_no_context_error (st : St) (kind : ActionKind)
    (picker : Option String) (oc : Outcome) (n₁ n₂ : Nat)
    (h : st.currentFileContent = none) :
    (runSuggestedAction st kind picker oc n₁ n₂).1.conversation =
      st.conversation ++ [⟨Role.error, "No active file selected", n₂⟩] ∧
    (runSuggestedAction st kind picker oc n₁ n₂).2 =
      [Event.appendMsg ⟨Role.error, "No active file selected", n₂⟩] ∧
    remoteCalls (runSuggestedAction st kind picker oc n₁ n₂).2 = [] ∧
    translateCalls (runSuggestedAction st kind picker oc n₁ n₂).2 = [] := by
  refine ⟨?_, ?_, ?_, ?_⟩ <;>
    simp [runSuggestedAction, handleActionClick, h, optTruthy,
      remoteCalls, translateCalls]

/-- **C7** witness: the summarize action with no context captured. -/
theorem C7_witness :
    (runSuggestedAction ⟨[], 0, true, none, true, true⟩
        ActionKind.summarize none Outcome.failure 0 9).1.conversation =
      [] ++ [⟨Role.error, "No active file selected", 9⟩] ∧
    (runSuggestedAction ⟨[], 0, true, none, true, true⟩
        ActionKind.summarize none Outcome.failure 0 9).2 =
      [Event.appendMsg ⟨Role.error, "No active file selected", 9⟩] ∧
    remoteCalls (runSuggestedAction ⟨[], 0, true, none, true, true⟩
        ActionKind.summarize none Outcome.failure 0 9).2 = [] ∧
    translateCalls (runSuggestedAction ⟨[], 0, true, none, true, true⟩
        ActionKind.summarize none Outcome.failure 0 9).2 = [] :=
  C7_no_context_error _ ActionKind.summarize none Outcome.failure 0 9 rfl

/-- **C8**: opening the panel (toggling while it is hidden) always
leaves the conversation empty immediately after the toggle returns,
regardless of its prior contents. -/
theorem C8_open_clears_conversation (st : St)
    (activeFileContent : Option String) (h : st.containerVisible = false) :
    (toggleChatContainer st activeFileContent).conversation = [] := by
  simp [toggleChatContainer, h]

/-- **C8** witness: opening over a non-empty prior conversation. -/
theorem C8_witness :
    (toggleChatContainer ⟨[⟨Role.user, "old", 0⟩], 0, false, some "Doc",
        true, false⟩ (some "New")).conversation = [] :=
  C8_open_clears_conversation _ (some "New") rfl

/-- **C9** counterexample: opening the panel while no document is open
does not unset ActiveContext — a snapshot captured by a previous
session survives, because `currentFileContent` is only ever assigned
inside the `if (activeFile)` branch. -/
theorem C9_counterexample :
    (toggleChatContainer ⟨[], 0, false, some "old document", true, false⟩
        none).currentFileContent = some "old document" ∧
    some "old document" ≠ (none : Option String) := by
  constructor
  · rfl
  · simp

/-- **C9** (amended): after opening the panel while no document is open,
ActiveContext retains whatever value it had before the open: it is unset
afterwards only if it was already unset, and a snapshot captured by a
previous session persists unchanged. -/
theorem C9_no_file_keeps_context (st : St)
    (h : st.containerVisible = false) :
    (toggleChatContainer st none).currentFileContent =
      st.currentFileContent := by
  simp [toggleChatContainer, h]

/-- **C9** witness: opening with no document and no previous snapshot. -/
theorem C9_witness :
    (toggleChatContainer ⟨[], 0, false, none, true, false⟩
        none).currentFileContent = none :=
  C9_no_file_keeps_context ⟨[], 0, false, none, true, false⟩ rfl

/-- **C10**: if no Model Client is configured when the Language Picker's
callback fires with a chosen language, the translate callback silently
does nothing: the state is unchanged and no event occurs — no remote
call, and no bot or error message is appended. -/
theorem C10_translate_unconfigured_noop (st : St) (content L : String)
    (oc : Outcome) (now : Nat) (h : st.serviceConfigured = false) :
    showLanguageSelectionModal st content (some L) oc now = (st, []) := by
  simp [showLanguageSelectionModal, h]

/-- **C10** witness: the callback fires with no client configured. -/
theorem C10_witness :
    showLanguageSelectionModal ⟨[], 0, true, some "Doc", false, true⟩
        "Doc" (some "German") Outcome.failure 7 =
      (⟨[], 0, true, some "Doc", false, true⟩, []) :=
  C10_translate_unconfigured_noop _ "Doc" "German" Outcome.failure 7 rfl
